import Mathlib

/-!
Verification of `src/script.js` (GAIB-Easy-Bentuk-3D): a browser script that
renders a rotating cube and a rotating pyramid on two WebGL canvases.

Shallow embedding conventions:
* JavaScript numbers are modelled as exact rationals (`ℚ`); the numeric
  literals of the source (`0.001`, `0.7`, …) become the corresponding
  rationals.
* WebGL calls are modelled as an explicit command trace (`GLCmd` / `Event`)
  together with a small-step interpreter (`applyCmd`) over a GL state that
  records buffer contents, bindings, uniforms and the current program.
* The `mat4` operations come from the external gl-matrix library, which is
  not part of this repository; they are kept abstract as a structure of
  operations (`Mat4Ops`) so that theorems about matrix construction hold for
  every implementation.
* The per-shape animation closure (`render` inside `draw_cube` /
  `draw_pyramid`) is modelled as a state transformer `render_step` on the
  mutable variables it touches (`cube_rotation`/`pyramid_rotation`, `then`,
  `delta1`/`delta2`); both closures have literally identical bodies up to
  the buffers drawn, so a single transformer describes both.
-/

/-- The `positions` array of `create_buffer_position_pyramid`
(src/script.js lines 145-159): 48 floats = 16 three-component positions. -/
def pyramid_positions : List ℚ :=
  [ -- Front face
    0.0, 1.0, 0.0, -1.0, -1.0, 1.0, 1.0, -1.0, 1.0,
    -- Back face
    0.0, 1.0, 0.0, 1.0, -1.0, -1.0, -1.0, -1.0, -1.0,
    -- Left face
    0.0, 1.0, 0.0, -1.0, -1.0, -1.0, -1.0, -1.0, 1.0,
    -- Tes
    0.0, 1.0, 0.0, -1.0, -1.0, -1.0, -1.0, -1.0, 1.0,
    -- Right face
    0.0, 1.0, 0.0, 1.0, -1.0, 1.0, 1.0, -1.0, -1.0,
    -- Tes
    1.0, -1.0, -1.0 ]

/-- The `positions` array of `create_buffer_position_cube`
(src/script.js lines 178-196): 72 floats = 24 three-component positions. -/
def cube_positions : List ℚ :=
  [ -- Front face
    -1.0, -1.0, 1.0, 1.0, -1.0, 1.0, 1.0, 1.0, 1.0, -1.0, 1.0, 1.0,
    -- Back face
    -1.0, -1.0, -1.0, -1.0, 1.0, -1.0, 1.0, 1.0, -1.0, 1.0, -1.0, -1.0,
    -- Top face
    -1.0, 1.0, -1.0, -1.0, 1.0, 1.0, 1.0, 1.0, 1.0, 1.0, 1.0, -1.0,
    -- Bottom face
    -1.0, -1.0, -1.0, 1.0, -1.0, -1.0, 1.0, -1.0, 1.0, -1.0, -1.0, 1.0,
    -- Right face
    1.0, -1.0, -1.0, 1.0, 1.0, -1.0, 1.0, 1.0, 1.0, 1.0, -1.0, 1.0,
    -- Left face
    -1.0, -1.0, -1.0, -1.0, -1.0, 1.0, -1.0, 1.0, 1.0, -1.0, 1.0, -1.0 ]

/-- The `face_colors` array of `create_buffer_color` (src/script.js
lines 208-213): four RGBA colors (red, green, blue, yellow).  The source
writes the components as `1.0` / `0.0`; they are the rationals 1 and 0. -/
def face_colors : List (List ℚ) :=
  [ [1, 0, 0, 1],  -- Red
    [0, 1, 0, 1],  -- Green
    [0, 0, 1, 1],  -- Blue
    [1, 1, 0, 1] ] -- Yellow

/-- The `colors` array built by the loop of `create_buffer_color`
(src/script.js lines 216-222): each face color is appended four times
(`colors = colors.concat(c, c, c, c)`). -/
def colors : List ℚ :=
  face_colors.foldl (fun acc c => acc ++ c ++ c ++ c ++ c) []

/-- The `indices` array of `create_buffer_index` (src/script.js
lines 240-277): two triangles per cube face, 36 entries. -/
def indices : List ℕ :=
  [ 0, 1, 2, 0, 2, 3,       -- front
    4, 5, 6, 4, 6, 7,       -- back
    8, 9, 10, 8, 10, 11,    -- top
    12, 13, 14, 12, 14, 15, -- bottom
    16, 17, 18, 16, 18, 19, -- right
    20, 21, 22, 20, 22, 23 ] -- left

/-- `vertex_count` passed by `draw_scene_cube` to `gl.drawElements`
(src/script.js line 372). -/
def cube_vertex_count : ℕ := 36

/-- `vertex_count` passed by `draw_scene_pyramid` to `gl.drawElements`
(src/script.js line 460). -/
def pyramid_vertex_count : ℕ := 21

/-- Number of 3-component positions in the pyramid position buffer. -/
def pyramid_position_count : ℕ := pyramid_positions.length / 3

/-- Number of 3-component positions in the cube position buffer. -/
def cube_position_count : ℕ := cube_positions.length / 3

/-!  The animation loop.  Each shape's `render` closure
(src/script.js lines 563-579 and 639-655) reads and writes three mutable
variables: the accumulated rotation (`cube_rotation` / `pyramid_rotation`),
the previous timestamp `then`, and the last frame delta (`delta1` /
`delta2`).  The closure body is

    now *= 0.001;
    delta = now - then;
    then = now;
    draw_scene(gl, program_info, buffers, rotation);   -- draws with the OLD rotation
    rotation += delta;
    requestAnimationFrame(render);
-/

/-- The mutable variables of one shape's animation loop. -/
structure AnimState where
  rotation : ℚ
  thenTime : ℚ
  delta : ℚ
  deriving DecidableEq, Repr

/-- One invocation of the `render` callback with raw timestamp `now`
(milliseconds), acting on the mutable variables.  Mirrors the source: the
timestamp is first scaled by `0.001`, `delta` and `then` are updated, and the
rotation is incremented by `delta` (after the draw call). -/
def render_step (s : AnimState) (now : ℚ) : AnimState :=
  let now := now * (1 / 1000)
  let delta := now - s.thenTime
  { rotation := s.rotation + delta, thenTime := now, delta := delta }

/-- Initial animation state: `cube_rotation = 0.0` / `pyramid_rotation = 0.0`
(lines 2-3), `delta1 = delta2 = 0` (lines 4-5), `then = 0` (lines 560, 636). -/
def anim_init : AnimState := { rotation := 0, thenTime := 0, delta := 0 }

/-- Run a sequence of `render` invocations with the given raw timestamps. -/
def run_frames (s : AnimState) (ts : List ℚ) : AnimState :=
  ts.foldl render_step s

/-- The rotation values passed to `draw_scene_cube` / `draw_scene_pyramid`
over a sequence of `render` invocations: the draw happens before the
`rotation += delta` update, so each frame is drawn with the state's current
rotation. -/
def run_draws (s : AnimState) (ts : List ℚ) : List ℚ :=
  match ts with
  | [] => []
  | t :: rest => s.rotation :: run_draws (render_step s t) rest

/-!  The WebGL layer.  Every `gl.*` call the script performs is recorded as a
command; matrices are values of an abstract type `M` because they are built
by the external gl-matrix library. -/

/-- The WebGL calls issued by the script, as trace commands.  `M` is the
matrix type. -/
inductive GLCmd (M : Type) where
  | clearColor (r g b a : ℚ)
  | clearDepth (d : ℚ)
  | enableDepthTest
  | depthFuncLequal
  | clear
  | createBuffer (id : ℕ)
  | bindBufferArray (id : ℕ)
  | bindBufferElement (id : ℕ)
  | bufferDataArray (data : List ℚ)
  | bufferDataElement (data : List ℚ)
  | vertexAttribPointer (loc numComponents stride offset : ℕ)
  | enableVertexAttribArray (loc : ℕ)
  | useProgram (p : ℕ)
  | uniformMatrix4fv (loc : ℕ) (m : M)
  | drawElements (count : ℕ)

/-- GL driver state observed by the script: buffer contents by buffer id,
the two bind points, the uniform store and the current program. -/
structure GLState (M : Type) where
  store : ℕ → List ℚ
  arrayBinding : ℕ
  elementBinding : ℕ
  uniforms : ℕ → Option M
  currentProgram : ℕ

/-- Small-step interpretation of one GL command.  `bufferData` writes the
buffer currently bound to the corresponding bind point; no other command
touches buffer contents. -/
def applyCmd {M : Type} (s : GLState M) : GLCmd M → GLState M
  | .bindBufferArray b => { s with arrayBinding := b }
  | .bindBufferElement b => { s with elementBinding := b }
  | .bufferDataArray d =>
      { s with store := fun i => if i = s.arrayBinding then d else s.store i }
  | .bufferDataElement d =>
      { s with store := fun i => if i = s.elementBinding then d else s.store i }
  | .uniformMatrix4fv loc m =>
      { s with uniforms := fun i => if i = loc then some m else s.uniforms i }
  | .useProgram p => { s with currentProgram := p }
  | _ => s

/-- Run a list of GL commands from a state. -/
def apply_trace {M : Type} (s : GLState M) (l : List (GLCmd M)) : GLState M :=
  l.foldl applyCmd s

/-- Recognizer for the two buffer-upload commands. -/
def GLCmd.isBufferData {M : Type} : GLCmd M → Bool
  | .bufferDataArray _ => true
  | .bufferDataElement _ => true
  | _ => false

/-- Recognizer for `drawElements`. -/
def GLCmd.isDrawElements {M : Type} : GLCmd M → Bool
  | .drawElements _ => true
  | _ => false

/-- The operations of the external gl-matrix `mat4` module, abstract over
the matrix representation.  `create` is the identity matrix;
`perspective fovy aspect near far` builds a projection;
`translate m v` and `rotate m angle axis` post-compose transforms, all in
gl-matrix's destination-functional reading. -/
structure Mat4Ops (M : Type) where
  create : M
  perspective : ℚ → ℚ → ℚ → ℚ → M
  translate : M → ℚ × ℚ × ℚ → M
  rotate : M → ℚ → ℚ × ℚ × ℚ → M

/-- The `buffers` object returned by `create_buffers_cube` /
`create_buffers_pyramid`: three buffer ids. -/
structure Buffers where
  position : ℕ
  color : ℕ
  indices : ℕ

/-- The `program_info` object of `draw_cube` / `draw_pyramid`: the program
handle, the two attribute locations and the two uniform locations. -/
structure ProgramInfo where
  program : ℕ
  vertex_position : ℕ
  vertex_color : ℕ
  projection_matrix : ℕ
  model_view_matrix : ℕ

/-- The projection matrix built by `draw_scene_cube` (src/script.js
lines 305-313): `perspective(45 * π / 180, aspect, 0.1, 100)`.  `pi` stands
for the external constant `Math.PI`. -/
def cube_projection_matrix {M : Type} (ops : Mat4Ops M) (pi aspect : ℚ) : M :=
  ops.perspective (45 * pi / 180) aspect (1 / 10) 100

/-- The model-view matrix built by `draw_scene_cube` (src/script.js
lines 317-344): identity, translated by `(-0.0, 0.0, -6.0)`, then rotated by
`cube_rotation` about Z, `cube_rotation * 0.7` about Y and
`cube_rotation * 0.3` about X. -/
def cube_model_view_matrix {M : Type} (ops : Mat4Ops M) (cube_rotation : ℚ) : M :=
  ops.rotate
    (ops.rotate
      (ops.rotate (ops.translate ops.create (0, 0, -6)) cube_rotation (0, 0, 1))
      (cube_rotation * (7 / 10)) (0, 1, 0))
    (cube_rotation * (3 / 10)) (1, 0, 0)

/-- The projection matrix built by `draw_scene_pyramid` (src/script.js
lines 393-401), same construction as the cube's. -/
def pyramid_projection_matrix {M : Type} (ops : Mat4Ops M) (pi aspect : ℚ) : M :=
  ops.perspective (45 * pi / 180) aspect (1 / 10) 100

/-- The model-view matrix built by `draw_scene_pyramid` (src/script.js
lines 405-432). -/
def pyramid_model_view_matrix {M : Type} (ops : Mat4Ops M) (pyramid_rotation : ℚ) : M :=
  ops.rotate
    (ops.rotate
      (ops.rotate (ops.translate ops.create (0, 0, -6)) pyramid_rotation (0, 0, 1))
      (pyramid_rotation * (7 / 10)) (0, 1, 0))
    (pyramid_rotation * (3 / 10)) (1, 0, 0)

/-- The GL calls of `set_position_attribute` (src/script.js lines 468-487):
bind the position buffer and describe it as 3-component floats. -/
def set_position_attribute_trace {M : Type} (buffers : Buffers)
    (program_info : ProgramInfo) : List (GLCmd M) :=
  [ .bindBufferArray buffers.position,
    .vertexAttribPointer program_info.vertex_position 3 0 0,
    .enableVertexAttribArray program_info.vertex_position ]

/-- The GL calls of `set_color_attribute` (src/script.js lines 491-507):
bind the color buffer and describe it as 4-component floats. -/
def set_color_attribute_trace {M : Type} (buffers : Buffers)
    (program_info : ProgramInfo) : List (GLCmd M) :=
  [ .bindBufferArray buffers.color,
    .vertexAttribPointer program_info.vertex_color 4 0 0,
    .enableVertexAttribArray program_info.vertex_color ]

/-- The GL calls of one `draw_scene_cube` invocation (src/script.js
lines 290-376), in source order. -/
def draw_scene_cube_trace {M : Type} (ops : Mat4Ops M) (pi : ℚ)
    (buffers : Buffers) (program_info : ProgramInfo)
    (aspect cube_rotation : ℚ) : List (GLCmd M) :=
  [ .clearColor 0 0 0 1, .clearDepth 1, .enableDepthTest, .depthFuncLequal,
    .clear ]
  ++ set_position_attribute_trace buffers program_info
  ++ set_color_attribute_trace buffers program_info
  ++ [ .bindBufferElement buffers.indices,
       .useProgram program_info.program,
       .uniformMatrix4fv program_info.projection_matrix
         (cube_projection_matrix ops pi aspect),
       .uniformMatrix4fv program_info.model_view_matrix
         (cube_model_view_matrix ops cube_rotation),
       .drawElements cube_vertex_count ]

/-- The GL calls of one `draw_scene_pyramid` invocation (src/script.js
lines 378-464), in source order. -/
def draw_scene_pyramid_trace {M : Type} (ops : Mat4Ops M) (pi : ℚ)
    (buffers : Buffers) (program_info : ProgramInfo)
    (aspect pyramid_rotation : ℚ) : List (GLCmd M) :=
  [ .clearColor 0 0 0 1, .clearDepth 1, .enableDepthTest, .depthFuncLequal,
    .clear ]
  ++ set_position_attribute_trace buffers program_info
  ++ set_color_attribute_trace buffers program_info
  ++ [ .bindBufferElement buffers.indices,
       .useProgram program_info.program,
       .uniformMatrix4fv program_info.projection_matrix
         (pyramid_projection_matrix ops pi aspect),
       .uniformMatrix4fv program_info.model_view_matrix
         (pyramid_model_view_matrix ops pyramid_rotation),
       .drawElements pyramid_vertex_count ]

/-- Replace the count argument of every `drawElements` command, leaving all
other commands unchanged.  Used to state that the cube and pyramid renderers
differ only in the index count drawn. -/
def set_draw_count {M : Type} (n : ℕ) : GLCmd M → GLCmd M
  | .drawElements _ => .drawElements n
  | c => c

/-!  Setup and the animation driver as an event trace.  On top of the GL
commands we record the observable events of `draw_cube` / `draw_pyramid`:
alerts, shader-object operations, location queries, `requestAnimationFrame`
requests and the rotation update of the render callback. -/

/-- Observable events of the script, including non-GL-command effects. -/
inductive Event (M : Type) where
  | alert (msg : String)
  | createShaderVertex
  | createShaderFragment
  | shaderSource
  | compileShader
  | deleteShader
  | createProgram
  | attachShader
  | linkProgram
  | getAttribLocation (nm : String)
  | getUniformLocation (nm : String)
  | gl (c : GLCmd M)
  | requestFrame
  | updateRotation

/-- Outcome flags of the environment the script cannot control: whether
`getContext("webgl")` returns a context, whether each shader compiles,
whether the program links, and the two info-log strings. -/
structure GLEnv where
  contextOk : Bool
  vertexCompileOk : Bool
  fragmentCompileOk : Bool
  linkOk : Bool
  shaderInfoLog : String
  programInfoLog : String

/-- `load_shader` (src/script.js lines 76-99): create, source and compile a
shader; on compile failure alert and delete the shader and return `null`.
Returns the event trace and whether a shader object (non-null) was
returned. -/
def load_shader_trace {M : Type} (env : GLEnv) (createEvent : Event M)
    (compileOk : Bool) : List (Event M) × Bool :=
  ([createEvent, .shaderSource, .compileShader]
    ++ (if compileOk then []
        else [.alert ("An error occurred compiling the shaders: "
                        ++ env.shaderInfoLog),
              .deleteShader]),
   compileOk)

/-- `create_shader_program` (src/script.js lines 34-73): load both shaders,
create a program, attach, link; on link failure alert and return `null`.
Note that a shader compile failure does NOT abort this function: it
continues to create and link the program regardless.  Returns the event
trace and whether a program (non-null) was returned. -/
def create_shader_program_trace {M : Type} (env : GLEnv) :
    List (Event M) × Bool :=
  ((load_shader_trace env .createShaderVertex env.vertexCompileOk).1
    ++ (load_shader_trace env .createShaderFragment env.fragmentCompileOk).1
    ++ [.createProgram, .attachShader, .attachShader, .linkProgram]
    ++ (if env.linkOk then []
        else [.alert ("Unable to initialize the shader program: "
                        ++ env.programInfoLog)]),
  env.linkOk)

/-- `create_buffer_position_cube` (src/script.js lines 170-204) as events:
create a buffer, bind it to `ARRAY_BUFFER`, upload `cube_positions`. -/
def create_buffer_position_cube_trace {M : Type} (id : ℕ) : List (Event M) :=
  [.gl (.createBuffer id), .gl (.bindBufferArray id),
   .gl (.bufferDataArray cube_positions)]

/-- `create_buffer_position_pyramid` (src/script.js lines 137-167) as
events. -/
def create_buffer_position_pyramid_trace {M : Type} (id : ℕ) : List (Event M) :=
  [.gl (.createBuffer id), .gl (.bindBufferArray id),
   .gl (.bufferDataArray pyramid_positions)]

/-- `create_buffer_color` (src/script.js lines 207-229) as events: used by
both shapes, uploads the `colors` expansion of `face_colors`. -/
def create_buffer_color_trace {M : Type} (id : ℕ) : List (Event M) :=
  [.gl (.createBuffer id), .gl (.bindBufferArray id),
   .gl (.bufferDataArray colors)]

/-- `create_buffer_index` (src/script.js lines 232-287) as events: uploads
`indices` to `ELEMENT_ARRAY_BUFFER`. -/
def create_buffer_index_trace {M : Type} (id : ℕ) : List (Event M) :=
  [.gl (.createBuffer id), .gl (.bindBufferElement id),
   .gl (.bufferDataElement (indices.map fun n => (n : ℚ)))]

/-- `create_buffers_cube` (src/script.js lines 102-117): position, color and
index buffers, in that order. -/
def create_buffers_cube_trace {M : Type} (buffers : Buffers) : List (Event M) :=
  create_buffer_position_cube_trace buffers.position
    ++ create_buffer_color_trace buffers.color
    ++ create_buffer_index_trace buffers.indices

/-- `create_buffers_pyramid` (src/script.js lines 119-134). -/
def create_buffers_pyramid_trace {M : Type} (buffers : Buffers) : List (Event M) :=
  create_buffer_position_pyramid_trace buffers.position
    ++ create_buffer_color_trace buffers.color
    ++ create_buffer_index_trace buffers.indices

/-- The location queries building `program_info` (src/script.js
lines 536-555 / 612-631). -/
def program_info_trace {M : Type} : List (Event M) :=
  [.getAttribLocation "aVertexPosition", .getAttribLocation "aVertexColor",
   .getUniformLocation "uProjectionMatrix",
   .getUniformLocation "uModelViewMatrix"]

/-- The events of `draw_cube` (src/script.js lines 509-583) up to and
including its final `requestAnimationFrame(render)`.  If `getContext`
returns `null`, the function alerts and returns early; otherwise it
proceeds unconditionally — in particular it does NOT branch on the result
of `create_shader_program`: buffers are created and the loop is started
even when compilation or linking failed. -/
def draw_cube_setup_trace {M : Type} (env : GLEnv) (buffers : Buffers) :
    List (Event M) :=
  if !env.contextOk then
    [.alert "Error! Browser may not support WebGL"]
  else
    [.gl (.clearColor 0 0 0 1), .gl .clear]
      ++ (create_shader_program_trace env).1
      ++ program_info_trace
      ++ create_buffers_cube_trace buffers
      ++ [.requestFrame]

/-- The events of `draw_pyramid` (src/script.js lines 585-659) up to and
including its final `requestAnimationFrame(render)`. -/
def draw_pyramid_setup_trace {M : Type} (env : GLEnv) (buffers : Buffers) :
    List (Event M) :=
  if !env.contextOk then
    [.alert "Error! Browser may not support WebGL"]
  else
    [.gl (.clearColor 0 0 0 1), .gl .clear]
      ++ (create_shader_program_trace env).1
      ++ program_info_trace
      ++ create_buffers_pyramid_trace buffers
      ++ [.requestFrame]

/-- The events of one invocation of the cube's `render` callback
(src/script.js lines 563-579): the `draw_scene_cube` GL calls, then the
`cube_rotation += delta1` update, then `requestAnimationFrame(render)` as
the callback's final statement. -/
def cube_render_callback_trace {M : Type} (ops : Mat4Ops M) (pi : ℚ)
    (buffers : Buffers) (program_info : ProgramInfo)
    (aspect cube_rotation : ℚ) : List (Event M) :=
  (draw_scene_cube_trace ops pi buffers program_info aspect
      cube_rotation).map Event.gl
    ++ [.updateRotation, .requestFrame]

/-- The events of one invocation of the pyramid's `render` callback
(src/script.js lines 639-655). -/
def pyramid_render_callback_trace {M : Type} (ops : Mat4Ops M) (pi : ℚ)
    (buffers : Buffers) (program_info : ProgramInfo)
    (aspect pyramid_rotation : ℚ) : List (Event M) :=
  (draw_scene_pyramid_trace ops pi buffers program_info aspect
      pyramid_rotation).map Event.gl
    ++ [.updateRotation, .requestFrame]

/-- Recognizers on events. -/
def Event.isAlert {M : Type} : Event M → Bool
  | .alert _ => true
  | _ => false

/-- Recognizer for buffer-upload events. -/
def Event.isBufferData {M : Type} : Event M → Bool
  | .gl c => c.isBufferData
  | _ => false

/-- Recognizer for `requestAnimationFrame` events. -/
def Event.isRequestFrame {M : Type} : Event M → Bool
  | .requestFrame => true
  | _ => false

/-- Recognizer for draw events. -/
def Event.isDrawElements {M : Type} : Event M → Bool
  | .gl c => c.isDrawElements
  | _ => false

/-- Pipeline-order monitor: scans an event trace and records whether any
buffer upload happened before the program link, and whether any draw
happened before the link and all three buffer uploads. -/
structure OrderMonitor where
  linked : Bool
  uploads : ℕ
  uploadBeforeLink : Bool
  drawBeforeReady : Bool
  deriving DecidableEq, Repr

/-- Initial monitor state. -/
def monitor_init : OrderMonitor :=
  { linked := false, uploads := 0, uploadBeforeLink := false,
    drawBeforeReady := false }

/-- One monitor step. -/
def monitor_step {M : Type} (m : OrderMonitor) (e : Event M) : OrderMonitor :=
  match e with
  | .linkProgram => { m with linked := true }
  | .gl (.bufferDataArray _) =>
      { m with uploads := m.uploads + 1,
               uploadBeforeLink := m.uploadBeforeLink || !m.linked }
  | .gl (.bufferDataElement _) =>
      { m with uploads := m.uploads + 1,
               uploadBeforeLink := m.uploadBeforeLink || !m.linked }
  | .gl (.drawElements _) =>
      { m with drawBeforeReady :=
          m.drawBeforeReady || !m.linked || decide (m.uploads < 3) }
  | _ => m

/-- Run the order monitor over a trace. -/
def run_monitor {M : Type} (l : List (Event M)) : OrderMonitor :=
  l.foldl monitor_step monitor_init

/-- An environment in which context creation, both compilations and the
link all succeed. -/
def env_ok (slog plog : String) : GLEnv :=
  { contextOk := true, vertexCompileOk := true, fragmentCompileOk := true,
    linkOk := true, shaderInfoLog := slog, programInfoLog := plog }

/-- An environment in which everything succeeds except the program link. -/
def env_link_fail (slog plog : String) : GLEnv :=
  { contextOk := true, vertexCompileOk := true, fragmentCompileOk := true,
    linkOk := false, shaderInfoLog := slog, programInfoLog := plog }

/-- An environment in which `getContext` returns `null`. -/
def env_no_context (cv cf lk : Bool) (slog plog : String) : GLEnv :=
  { contextOk := false, vertexCompileOk := cv, fragmentCompileOk := cf,
    linkOk := lk, shaderInfoLog := slog, programInfoLog := plog }

/-- An environment with a working context and arbitrary outcomes for the
two shader compilations and the program link. -/
def env_with_context (cv cf lk : Bool) (slog plog : String) : GLEnv :=
  { contextOk := true, vertexCompileOk := cv, fragmentCompileOk := cf,
    linkOk := lk, shaderInfoLog := slog, programInfoLog := plog }

/-!  Helper lemmas about the animation loop. -/

theorem run_frames_cons (s : AnimState) (t : ℚ) (rest : List ℚ) :
    run_frames s (t :: rest) = run_frames (render_step s t) rest := rfl

/-- After a non-empty sequence of frames, `then` holds the last timestamp
scaled to seconds. -/
theorem run_frames_thenTime (ts : List ℚ) (h : ts ≠ []) (s : AnimState) :
    (run_frames s ts).thenTime = ts.getLast h * (1 / 1000) := by
  induction ts generalizing s with
  | nil => exact absurd rfl h
  | cons t rest ih =>
    cases rest with
    | nil => simp [run_frames, render_step]
    | cons r rs =>
      rw [run_frames_cons, ih (by simp) (render_step s t)]
      congr 1

/-- The quantity `rotation - then` is invariant under frames: each frame
adds `now - then` to the rotation and sets `then := now`. -/
theorem run_frames_rot_sub (ts : List ℚ) (s : AnimState) :
    (run_frames s ts).rotation - (run_frames s ts).thenTime
      = s.rotation - s.thenTime := by
  induction ts generalizing s with
  | nil => rfl
  | cons t rest ih =>
    rw [run_frames_cons, ih]
    simp only [render_step]
    ring

/-- The rotation drawn at frame `k` is the rotation accumulated by the
first `k` frames (the draw precedes the `rotation += delta` update). -/
theorem run_draws_getElem (ts : List ℚ) (s : AnimState) (k : ℕ)
    (h : k < ts.length) :
    (run_draws s ts)[k]? = some ((run_frames s (ts.take k)).rotation) := by
  induction ts generalizing s k with
  | nil => simp at h
  | cons t rest ih =>
    cases k with
    | zero => simp [run_draws, run_frames]
    | succ k =>
      simp only [run_draws, List.take_succ_cons, run_frames_cons,
        List.getElem?_cons_succ]
      exact ih (render_step s t) k (by simpa using h)

/-- One frame with a timestamp not earlier than `then` does not decrease
the rotation; auxiliary induction for monotonicity over sorted timestamp
sequences. -/
theorem run_frames_take_le (ts : List ℚ) (s : AnimState)
    (hmem : ∀ t ∈ ts, s.thenTime ≤ t * (1 / 1000))
    (hsort : List.Sorted (· ≤ ·) ts) (k : ℕ) :
    (run_frames s (ts.take k)).rotation
      ≤ (run_frames s (ts.take (k + 1))).rotation := by
  induction ts generalizing s k with
  | nil => simp
  | cons t rest ih =>
    cases k with
    | zero =>
      simp only [List.take_zero, List.take_succ_cons, run_frames_cons]
      have ht := hmem t (List.mem_cons_self t rest)
      show s.rotation ≤ (run_frames (render_step s t) []).rotation
      simp only [run_frames, List.foldl_nil, render_step]
      linarith
    | succ k =>
      simp only [List.take_succ_cons, run_frames_cons]
      apply ih (render_step s t) ?_ (List.sorted_cons.mp hsort).2 k
      intro r hr
      have h1 : t ≤ r := (List.sorted_cons.mp hsort).1 r hr
      show t * (1 / 1000) ≤ r * (1 / 1000)
      have h2 : (0 : ℚ) ≤ 1 / 1000 := by norm_num
      exact mul_le_mul_of_nonneg_right h1 h2


/-!  Claim theorems. -/

/-- C1: after any sequence of render-callback invocations starting from
`then = 0`, the accumulated rotation angle equals the last timestamp
converted to seconds (`now * 0.001`): the per-frame deltas
`now - then` telescope to the elapsed seconds. -/
theorem rotation_telescopes_to_elapsed_seconds (ts : List ℚ) (h : ts ≠ []) :
    (run_frames anim_init ts).rotation = ts.getLast h * (1 / 1000) := by
  have h1 := run_frames_thenTime ts h anim_init
  have h2 := run_frames_rot_sub ts anim_init
  have h3 : anim_init.rotation - anim_init.thenTime = 0 := by
    norm_num [anim_init]
  rw [h3] at h2
  linarith

/-- Witness for C1: after frames at 2000 ms and 3000 ms the rotation is 3
(seconds). -/
theorem rotation_telescopes_witness :
    ([(2000 : ℚ), 3000] ≠ []) ∧
      (run_frames anim_init [(2000 : ℚ), 3000]).rotation = 3 := by
  refine ⟨by simp, ?_⟩
  rw [rotation_telescopes_to_elapsed_seconds [(2000 : ℚ), 3000] (by simp)]
  norm_num

/-- C2 counterexample: the claim says the color buffer holds one color per
face of the cube — 6 distinct face colors expanded to 24 RGBA entries
(96 floats).  In the source, `face_colors` has 4 entries and the expanded
`colors` array has 64 floats = 16 RGBA entries, while the cube position
buffer has 24 vertices. -/
theorem color_buffer_not_one_color_per_cube_face :
    face_colors.length = 4 ∧ face_colors.length ≠ 6
      ∧ colors.length = 64 ∧ colors.length ≠ 24 * 4
      ∧ cube_positions.length = 24 * 3 := by
  decide

/-- C2 amended: `create_buffer_color` uploads 4 face colors (red, green,
blue, yellow), each broadcast to 4 consecutive vertices, producing 16
per-vertex RGBA entries (64 floats), shared by both shapes; this equals one
entry per pyramid position but covers only 16 of the cube's 24 vertices. -/
theorem color_buffer_four_faces_sixteen_entries :
    face_colors.length = 4 ∧ colors.length = 64
      ∧ ((List.range 16).all fun e =>
          decide ((colors.drop (4 * e)).take 4 = face_colors.getD (e / 4) []))
        = true
      ∧ colors.length = 4 * pyramid_position_count
      ∧ colors.length ≠ 4 * cube_position_count := by
  decide

/-- C3 counterexample: with a working context but a failing program link,
`draw_cube` raises the alert yet still creates all three buffers and still
starts the render loop (its trace contains 3 buffer uploads and a
`requestAnimationFrame`), contradicting the claim that both failure points
make the setup function return early with no buffers and no loop. -/
theorem link_failure_still_creates_buffers_and_loop :
    ((@draw_cube_setup_trace Unit (env_link_fail "" "") ⟨1, 2, 3⟩).countP
        Event.isAlert = 1)
      ∧ ((@draw_cube_setup_trace Unit (env_link_fail "" "") ⟨1, 2, 3⟩).countP
          Event.isBufferData = 3)
      ∧ ((@draw_cube_setup_trace Unit (env_link_fail "" "") ⟨1, 2, 3⟩).countP
          Event.isRequestFrame = 1)
      ∧ ((@draw_pyramid_setup_trace Unit (env_link_fail "" "") ⟨1, 2, 3⟩).countP
          Event.isBufferData = 3)
      ∧ ((@draw_pyramid_setup_trace Unit (env_link_fail "" "") ⟨1, 2, 3⟩).countP
          Event.isRequestFrame = 1) := by
  decide

set_option maxHeartbeats 1600000 in
/-- C3 amended: a null WebGL context raises a blocking alert and makes
`draw_cube` / `draw_pyramid` return early — the whole trace is that single
alert.  A shader compile failure raises a blocking alert (one per failed
shader) and makes `load_shader` return null; a link failure raises a
blocking alert and makes `create_shader_program` return null (whose result
depends only on the link status); but in every combination of compile and
link failures the enclosing setup function does not return early: it still
queries locations, creates and uploads all three buffers and starts the
render loop. -/
theorem failure_paths_amended :
    ∀ (cv cf lk : Bool) (slog plog : String) (buffers : Buffers),
      @draw_cube_setup_trace Unit (env_no_context cv cf lk slog plog) buffers
          = [.alert "Error! Browser may not support WebGL"]
        ∧ @draw_pyramid_setup_trace Unit (env_no_context cv cf lk slog plog)
            buffers
          = [.alert "Error! Browser may not support WebGL"]
        ∧ (@draw_cube_setup_trace Unit (env_with_context cv cf lk slog plog)
            buffers).countP Event.isAlert
          = (if cv then 0 else 1) + (if cf then 0 else 1)
              + (if lk then 0 else 1)
        ∧ (@draw_cube_setup_trace Unit (env_with_context cv cf lk slog plog)
            buffers).countP Event.isBufferData = 3
        ∧ (@draw_cube_setup_trace Unit (env_with_context cv cf lk slog plog)
            buffers).countP Event.isRequestFrame = 1
        ∧ (@draw_pyramid_setup_trace Unit
            (env_with_context cv cf lk slog plog) buffers).countP
              Event.isAlert
          = (if cv then 0 else 1) + (if cf then 0 else 1)
              + (if lk then 0 else 1)
        ∧ (@draw_pyramid_setup_trace Unit
            (env_with_context cv cf lk slog plog) buffers).countP
              Event.isBufferData = 3
        ∧ (@draw_pyramid_setup_trace Unit
            (env_with_context cv cf lk slog plog) buffers).countP
              Event.isRequestFrame = 1
        ∧ (@load_shader_trace Unit (env_with_context cv cf lk slog plog)
            Event.createShaderVertex false).2 = false
        ∧ (@load_shader_trace Unit (env_with_context cv cf lk slog plog)
            Event.createShaderVertex false).1.filter Event.isAlert
          = [.alert ("An error occurred compiling the shaders: " ++ slog)]
        ∧ (@create_shader_program_trace Unit
            (env_with_context cv cf lk slog plog)).2 = lk
        ∧ (@draw_cube_setup_trace Unit
            (env_with_context false true true slog plog) buffers).filter
              Event.isAlert
          = [.alert ("An error occurred compiling the shaders: " ++ slog)]
        ∧ (@draw_cube_setup_trace Unit (env_link_fail slog plog)
            buffers).filter Event.isAlert
          = [.alert ("Unable to initialize the shader program: " ++ plog)]
        ∧ (@create_shader_program_trace Unit (env_link_fail slog plog)).2
          = false
        ∧ (@draw_cube_setup_trace Unit (env_link_fail slog plog)
            buffers).countP Event.isBufferData = 3
        ∧ (@draw_cube_setup_trace Unit (env_link_fail slog plog)
            buffers).countP Event.isRequestFrame = 1
        ∧ (@draw_pyramid_setup_trace Unit (env_link_fail slog plog)
            buffers).countP Event.isBufferData = 3
        ∧ (@draw_pyramid_setup_trace Unit (env_link_fail slog plog)
            buffers).countP Event.isRequestFrame = 1 := by
  intro cv cf lk slog plog buffers
  cases cv <;> cases cf <;> cases lk <;>
    exact ⟨rfl, rfl, rfl, rfl, rfl, rfl, rfl, rfl, rfl, rfl, rfl, rfl, rfl,
      rfl, rfl, rfl, rfl, rfl⟩

/-- C4: over any nondecreasing timestamp sequence (starting at or after the
initial `then = 0`), the accumulated rotation is monotone in the number of
frames run; and the per-frame draw path writes no buffer contents — the GL
store is unchanged by `draw_scene_cube` / `draw_scene_pyramid`, so the
rotation together with `then`/`delta` (the fields of `AnimState`) is the
only program state a frame mutates. -/
theorem rotation_monotone_and_buffers_untouched (ts : List ℚ)
    (hsort : List.Sorted (· ≤ ·) (0 :: ts)) :
    (Monotone fun k => (run_frames anim_init (ts.take k)).rotation)
      ∧ ∀ (M : Type) (s : GLState M) (ops : Mat4Ops M) (pi : ℚ)
          (buffers : Buffers) (program_info : ProgramInfo) (aspect r : ℚ),
          (apply_trace s
              (draw_scene_cube_trace ops pi buffers program_info aspect
                r)).store = s.store
          ∧ (apply_trace s
              (draw_scene_pyramid_trace ops pi buffers program_info aspect
                r)).store = s.store := by
  constructor
  · apply monotone_nat_of_le_succ
    intro k
    apply run_frames_take_le ts anim_init ?_ (List.sorted_cons.mp hsort).2 k
    intro t ht
    have h0 : (0 : ℚ) ≤ t := (List.sorted_cons.mp hsort).1 t ht
    show (0 : ℚ) ≤ t * (1 / 1000)
    exact mul_nonneg h0 (by norm_num)
  · intro M s ops pi buffers program_info aspect r
    exact ⟨rfl, rfl⟩

/-- Witness for C4 at the timestamp sequence [1000 ms, 2500 ms]. -/
theorem rotation_monotone_witness :
    List.Sorted (· ≤ ·) ((0 : ℚ) :: [1000, 2500])
      ∧ ((Monotone fun k =>
            (run_frames anim_init ([(1000 : ℚ), 2500].take k)).rotation)
          ∧ ∀ (M : Type) (s : GLState M) (ops : Mat4Ops M) (pi : ℚ)
              (buffers : Buffers) (program_info : ProgramInfo) (aspect r : ℚ),
              (apply_trace s
                  (draw_scene_cube_trace ops pi buffers program_info aspect
                    r)).store = s.store
              ∧ (apply_trace s
                  (draw_scene_pyramid_trace ops pi buffers program_info aspect
                    r)).store = s.store) :=
  ⟨by decide, rotation_monotone_and_buffers_untouched [(1000 : ℚ), 2500]
    (by decide)⟩

/-- C5: every index consumed by a draw call is in range for the shape's
position buffer: each of the first 21 entries of the shared index buffer
(the count `draw_scene_pyramid` passes to `drawElements`) is below 16, the
number of 3-component positions in the pyramid position buffer, and each of
all 36 entries (the count `draw_scene_cube` passes) is below 24, the number
of positions in the cube position buffer; and the draw traces end with
exactly those counts. -/
theorem draw_indices_in_range :
    ((indices.take pyramid_vertex_count).all fun i =>
        decide (i < pyramid_position_count)) = true
      ∧ (indices.all fun i => decide (i < cube_position_count)) = true
      ∧ pyramid_position_count = 16 ∧ cube_position_count = 24
      ∧ indices.length = 36
      ∧ pyramid_vertex_count = 21 ∧ cube_vertex_count = 36
      ∧ ∀ (M : Type) (ops : Mat4Ops M) (pi : ℚ) (buffers : Buffers)
          (program_info : ProgramInfo) (aspect r : ℚ),
          (draw_scene_pyramid_trace ops pi buffers program_info aspect
              r).getLast? = some (.drawElements pyramid_vertex_count)
          ∧ (draw_scene_cube_trace ops pi buffers program_info aspect
              r).getLast? = some (.drawElements cube_vertex_count) := by
  refine ⟨by decide, by decide, by decide, by decide, by decide, rfl, rfl,
    fun M ops pi buffers program_info aspect r => ⟨rfl, rfl⟩⟩

/-- C6: the per-frame path performs no buffer write: running the GL
interpreter over the trace of `draw_scene_cube` or `draw_scene_pyramid`
leaves the contents of every buffer (in particular the position, color and
index buffers) unchanged, and neither trace contains a `bufferData`
command. -/
theorem draw_scene_preserves_buffer_contents :
    ∀ (M : Type) (s : GLState M) (ops : Mat4Ops M) (pi : ℚ)
      (buffers : Buffers) (program_info : ProgramInfo) (aspect rotation : ℚ),
      (apply_trace s
          (draw_scene_cube_trace ops pi buffers program_info aspect
            rotation)).store = s.store
      ∧ (apply_trace s
          (draw_scene_pyramid_trace ops pi buffers program_info aspect
            rotation)).store = s.store
      ∧ (draw_scene_cube_trace ops pi buffers program_info aspect
          rotation).countP GLCmd.isBufferData = 0
      ∧ (draw_scene_pyramid_trace ops pi buffers program_info aspect
          rotation).countP GLCmd.isBufferData = 0 :=
  fun M s ops pi buffers program_info aspect rotation => ⟨rfl, rfl, rfl, rfl⟩

/-- C7: in each shape's render callback, the `requestAnimationFrame`
request for the next frame is the callback's final event, and it occurs
exactly once: all drawing and state-update work of the callback precedes
the scheduling of the next frame. -/
theorem request_frame_is_last_callback_event :
    ∀ (M : Type) (ops : Mat4Ops M) (pi : ℚ) (buffers : Buffers)
      (program_info : ProgramInfo) (aspect rotation : ℚ),
      (cube_render_callback_trace ops pi buffers program_info aspect
          rotation).getLast? = some .requestFrame
      ∧ (cube_render_callback_trace ops pi buffers program_info aspect
          rotation).countP Event.isRequestFrame = 1
      ∧ (pyramid_render_callback_trace ops pi buffers program_info aspect
          rotation).getLast? = some .requestFrame
      ∧ (pyramid_render_callback_trace ops pi buffers program_info aspect
          rotation).countP Event.isRequestFrame = 1 :=
  fun M ops pi buffers program_info aspect rotation => ⟨rfl, rfl, rfl, rfl⟩

/-- C8: running the pipeline-order monitor over the full trace of each
shape's setup (with a succeeding environment) followed by its first render
callback reports a clean order: the program link happens before every
buffer upload, exactly three buffer uploads happen, and no `drawElements`
occurs before the link and all three uploads. -/
theorem pipeline_order_monitor_clean :
    ∀ (slog plog : String) (buffers : Buffers) (M : Type) (ops : Mat4Ops M)
      (pi : ℚ) (program_info : ProgramInfo) (aspect r : ℚ),
      run_monitor (draw_cube_setup_trace (env_ok slog plog) buffers
          ++ cube_render_callback_trace ops pi buffers program_info aspect r)
        = { linked := true, uploads := 3, uploadBeforeLink := false,
            drawBeforeReady := false }
      ∧ run_monitor (draw_pyramid_setup_trace (env_ok slog plog) buffers
          ++ pyramid_render_callback_trace ops pi buffers program_info aspect
              r)
        = { linked := true, uploads := 3, uploadBeforeLink := false,
            drawBeforeReady := false } :=
  fun slog plog buffers M ops pi program_info aspect r => ⟨rfl, rfl⟩

/-- C9: for equal rotation inputs and equal aspect ratios,
`draw_scene_cube` and `draw_scene_pyramid` build identical projection
matrices — `perspective(45·π/180, aspect, 0.1, 100)` — and identical
model-view matrices — identity translated by `(0, 0, -6)`, then rotated by
the angle about Z, 0.7 times the angle about Y and 0.3 times the angle
about X, in that order — for every implementation of the `mat4` operations;
and the two GL traces differ only in the `drawElements` count (36 versus
21). -/
theorem cube_pyramid_renderers_equivalent :
    ∀ (M : Type) (ops : Mat4Ops M) (pi aspect rotation : ℚ)
      (buffers : Buffers) (program_info : ProgramInfo),
      cube_projection_matrix ops pi aspect
          = pyramid_projection_matrix ops pi aspect
      ∧ cube_model_view_matrix ops rotation
          = pyramid_model_view_matrix ops rotation
      ∧ cube_projection_matrix ops pi aspect
          = ops.perspective (45 * pi / 180) aspect (1 / 10) 100
      ∧ cube_model_view_matrix ops rotation
          = ops.rotate
              (ops.rotate
                (ops.rotate (ops.translate ops.create (0, 0, -6)) rotation
                  (0, 0, 1))
                (rotation * (7 / 10)) (0, 1, 0))
              (rotation * (3 / 10)) (1, 0, 0)
      ∧ draw_scene_pyramid_trace ops pi buffers program_info aspect rotation
          = (draw_scene_cube_trace ops pi buffers program_info aspect
              rotation).map (set_draw_count pyramid_vertex_count)
      ∧ cube_vertex_count = 36 ∧ pyramid_vertex_count = 21 :=
  fun M ops pi aspect rotation buffers program_info =>
    ⟨rfl, rfl, rfl, rfl, rfl, rfl, rfl⟩

/-- C10: the rotation drawn at (0-based) frame `k` is the rotation
accumulated through the preceding `k` frames, because the draw call
precedes the `rotation += delta` update; in particular the first frame is
always drawn with rotation exactly 0, regardless of its timestamp. -/
theorem first_frame_drawn_at_zero_rotation (ts : List ℚ) (k : ℕ)
    (h : k < ts.length) :
    (run_draws anim_init ts)[k]?
        = some ((run_frames anim_init (ts.take k)).rotation)
      ∧ (run_draws anim_init ts)[0]? = some 0 := by
  refine ⟨run_draws_getElem ts anim_init k h, ?_⟩
  have h0 : 0 < ts.length := Nat.lt_of_le_of_lt (Nat.zero_le k) h
  have hx := run_draws_getElem ts anim_init 0 h0
  simpa [run_frames, anim_init] using hx

/-- Witness for C10 at timestamps [5000 ms, 7000 ms], frame 1. -/
theorem first_frame_drawn_witness :
    (1 < [(5000 : ℚ), 7000].length)
      ∧ ((run_draws anim_init [(5000 : ℚ), 7000])[1]?
            = some ((run_frames anim_init
                ([(5000 : ℚ), 7000].take 1)).rotation)
          ∧ (run_draws anim_init [(5000 : ℚ), 7000])[0]? = some 0) :=
  ⟨by decide, first_frame_drawn_at_zero_rotation [(5000 : ℚ), 7000] 1
    (by decide)⟩
